import Mathlib

/-!
Shallow embedding of the SAGE backend (`src/backend/app.py`), covering the
embedding-ingestion pipeline (`generate_embeddings_async`), the in-memory
admission queue (`upload_and_generate_embeddings` / the queue pop in
`generate_embeddings_async`), the cancellation endpoints
(`cancel_video_processing`, `cancel_embedding_task`) and the segment
comparator (`compare_local_videos`).

Modelling conventions:
* Python floats (time offsets, durations, thresholds read from the request)
  are modelled as `ℚ` where the code only ever compares and adds them, and
  embedding-space arithmetic (dot products, norms, distances) is modelled
  over `ℝ`, since `np.linalg.norm` takes a square root.
* The in-memory dicts `video_storage` / `embedding_storage` are modelled as
  association lists keyed by the id strings; `pending_videos` is a list used
  as a FIFO, `processing_video` an `Option String`, `active_tasks` a list of
  embedding ids, exactly mirroring the module-level globals.
* Each `raise HTTPException(...)` site is modelled as an `Except.error`
  carrying the status code together with a structured payload holding the
  data the Python f-string interpolates.  The `except Exception` handler at
  the bottom of `compare_local_videos` catches those `HTTPException`s and
  re-raises them as status 500, which the model reproduces.
-/

namespace SAGE

/-- One embedding segment as returned by the remote service: start/end
offsets in seconds and the fixed-length float vector
(`start_offset_sec`, `end_offset_sec`, `embeddings_float` in the code). -/
structure Segment where
  start_offset_sec : ℚ
  end_offset_sec : ℚ
  embedding : List ℝ

/-- The in-memory `embedding_storage[embedding_id]` dict: `filename`,
`status`, the `embeddings` payload (segment list, present once completed;
`none` models a missing/falsy `embeddings` object), `duration` and `error`.
`task_id` / timestamps are not needed by any claim and are omitted. -/
structure EmbedRecord where
  filename : String
  status : String
  embeddings : Option (List Segment)
  duration : Option ℚ
  error : Option String

/-- The in-memory `video_storage[video_id]` dict (the fields used by the
cancellation endpoint). -/
structure VideoRecord where
  filename : String
  s3_url : String
  status : String
  embedding_id : String
deriving DecidableEq

/-- An entry of the `pending_videos` FIFO queue (`app.py` lines 582-587). -/
structure QueueEntry where
  video_id : String
  embedding_id : String
  s3_url : String
  api_key : String
deriving DecidableEq

/-- Validation performed by `generate_embeddings_async` once the remote task
reports `ready` (`app.py` lines 389-442).  The code raises when the segment
list is empty; otherwise it sets `duration = segments[-1].end_offset_sec`
and, for `duration > 600`, only logs a warning when the segment count is off
the 2-second grid; for `duration > 900` it raises when fewer than 100
segments were returned or when `last_segment.end_offset_sec <
duration * 0.8`.  Returns the stored duration on success. -/
def validateEmbeddingResult (segs : List Segment) : Except String ℚ :=
  match segs.getLast? with
  | none => .error "completed but no segments found in video_embedding"
  | some last =>
    let duration := last.end_offset_sec
    let total := segs.length
    if 600 < duration then
      -- `abs(total_segments - expected_segments) > 10` only logs a warning
      if 900 < duration then
        if total < 100 then
          .error "Very long video has insufficient segments - embedding generation likely failed"
        else if last.end_offset_sec < duration * (4 / 5) then
          .error "Segments do not cover full video duration - embedding generation incomplete"
        else
          .ok duration
      else
        .ok duration
    else
      .ok duration

/-- Outcome of one ingestion on its `EmbeddingRecord` (`app.py` lines
444-451 on success, 476-479 in the `except` handler): success stores the
segments and duration under status `completed`; any raised error sets
status `failed` and the message. -/
def runIngest (rec : EmbedRecord) (segs : List Segment) : EmbedRecord :=
  match validateEmbeddingResult segs with
  | .ok d => { rec with status := "completed", embeddings := some segs, duration := some d }
  | .error e => { rec with status := "failed", error := some e }

/-- State of the admission queue: `processing_video` and `pending_videos`
(`app.py` lines 182-183). -/
structure QueueState where
  processing_video : Option String
  pending_videos : List QueueEntry
deriving DecidableEq

/-- Admission decision in `upload_and_generate_embeddings` (`app.py` lines
573-597): when no video is processing, the new one becomes active and its
task starts (response status `processing`); otherwise the request is
appended to `pending_videos` (response status `queued`). -/
def submitVideo (s : QueueState) (e : QueueEntry) : QueueState × String :=
  match s.processing_video with
  | none => ({ s with processing_video := some e.video_id }, "processing")
  | some _ => ({ s with pending_videos := s.pending_videos ++ [e] }, "queued")

/-- Queue pop performed at the end of `generate_embeddings_async` — the same
code runs on the success path (lines 461-474) and in the `except` handler
(lines 485-497): pop `pending_videos[0]` and make it the processing video,
starting its task (returned as the second component), or clear
`processing_video` when the FIFO is empty. -/
def finishActive (s : QueueState) : QueueState × Option QueueEntry :=
  match s.pending_videos with
  | [] => ({ s with processing_video := none }, none)
  | next :: rest => (⟨some next.video_id, rest⟩, some next)

/-- Whole-process mutable state touched by the cancellation endpoints. -/
structure SysState where
  video_storage : List (String × VideoRecord)
  embedding_storage : List (String × EmbedRecord)
  active_tasks : List String
  pending_videos : List QueueEntry
  processing_video : Option String

/-- Dictionary lookup on an association list (Python `d[k]` / `k in d`). -/
def lookupStr {α : Type} (l : List (String × α)) (k : String) : Option α :=
  (l.find? (fun p => p.1 == k)).map (fun p => p.2)

/-- Python `del d[k]` on an association list. -/
def eraseStr {α : Type} (l : List (String × α)) (k : String) : List (String × α) :=
  l.filter (fun p => p.1 != k)

/-- Python `d[k] = v` for a key already present. -/
def setStr {α : Type} (l : List (String × α)) (k : String) (v : α) : List (String × α) :=
  l.map (fun p => if p.1 == k then (k, v) else p)

/-- Embedding-storage effect of the `/cancel-video/{video_id}` endpoint
(`app.py` lines 977-998): if the embedding record exists with status
`processing`/`pending`, mark it cancelled (the remote-task delete is
external and has no local effect); then, if present, delete it.  In the
source the video-record delete is interleaved between these two steps, but
it touches only the separate `video_storage` dict. -/
def cancelVideoEmbedStore (es : List (String × EmbedRecord)) (eid : String) :
    List (String × EmbedRecord) :=
  let es1 :=
    match lookupStr es eid with
    | some ed =>
      if ed.status = "processing" ∨ ed.status = "pending" then
        let cancelled := { ed with status := "cancelled", error := some "Cancelled by user" }
        setStr es eid cancelled
      else es
    | none => es
  if (lookupStr es1 eid).isSome then eraseStr es1 eid else es1

/-- The `/cancel-video/{video_id}` endpoint (`app.py` lines 964-1005):
look up the video (not found → `false`, the 404 path); mark/delete its
embedding record and delete the video record.  `pending_videos`,
`processing_video` and `active_tasks` are never touched. -/
def cancelVideoProcessing (st : SysState) (video_id : String) : SysState × Bool :=
  match lookupStr st.video_storage video_id with
  | none => (st, false)
  | some vd =>
    ({ st with
        video_storage := eraseStr st.video_storage video_id,
        embedding_storage := cancelVideoEmbedStore st.embedding_storage vd.embedding_id },
      true)

/-- The `/cancel-embedding-task` endpoint (`app.py` lines 608-632): 404 when
the id has no entry in `active_tasks`; otherwise mark the embedding record
cancelled and drop the id from `active_tasks`.  It neither pops
`pending_videos` nor clears `processing_video`, and the blocking
`task.wait_for_done` poll inside `generate_embeddings_async` is not
interrupted. -/
def cancelEmbeddingTask (st : SysState) (embedding_id : String) : SysState × Bool :=
  if st.active_tasks.contains embedding_id then
    let es :=
      match lookupStr st.embedding_storage embedding_id with
      | some ed =>
        let cancelled := { ed with status := "cancelled", error := some "Task cancelled by user" }
        setStr st.embedding_storage embedding_id cancelled
      | none => st.embedding_storage
    ({ st with
        embedding_storage := es,
        active_tasks := st.active_tasks.filter (fun x => x != embedding_id) },
      true)
  else (st, false)

/-- One entry of the `differences` list in the comparison response
(`DifferenceSegment` in the code). -/
structure DifferenceSegment where
  start_sec : ℚ
  end_sec : ℚ
  distance : ℝ

/-- The comparison response (`ComparisonResponse` in the code). -/
structure ComparisonResponse where
  filename1 : String
  filename2 : String
  differences : List DifferenceSegment
  total_segments : ℕ
  differing_segments : ℕ
  threshold_used : ℝ

/-- Structured payload of each `HTTPException` raised by
`compare_local_videos`, carrying the data its f-string message
interpolates.  `which` says whether video 1 or video 2 is at fault. -/
inductive CompareErr where
  | notFound
  | notReady (which : ℕ) (id : String) (status : String)
  | noSegments (which : ℕ) (duration : ℚ)
  | insufficientSegments (which : ℕ) (expected : ℤ) (got : ℕ)
  | coverageShort (which : ℕ)
deriving DecidableEq

noncomputable section

/-- Dot product of two float vectors, `np.dot(v1, v2)`. -/
def dotp : List ℝ → List ℝ → ℝ
  | a :: as, b :: bs => a * b + dotp as bs
  | _, _ => 0

/-- Euclidean norm, `np.linalg.norm(v)`. -/
def l2norm (v : List ℝ) : ℝ := Real.sqrt (dotp v v)

/-- Per-pair distance (`app.py` lines 801-809): cosine distance
`1.0 - dot / (norm1 * norm2)` when `norm1 > 0 and norm2 > 0`, else `1.0`;
any other metric string falls into the Euclidean branch
`np.linalg.norm(v1 - v2)`. -/
def segDistance (metric : String) (v1 v2 : List ℝ) : ℝ :=
  if metric = "cosine" then
    if 0 < l2norm v1 ∧ 0 < l2norm v2 then
      1 - dotp v1 v2 / (l2norm v1 * l2norm v2)
    else 1
  else l2norm (List.zipWith (fun a b => a - b) v1 v2)

/-- The `all_distances` list built by the positional loop (`app.py` lines
791-811): one distance per index `i < min_segments`, pairing index `i`
of video 1 with index `i` of video 2. -/
def allDistances (metric : String) (s1 s2 : List Segment) : List ℝ :=
  List.zipWith (fun a b => segDistance metric a.embedding b.embedding) s1 s2

/-- Emission decision of the positional loop for one pair (`app.py` lines
817-822): a `DifferenceSegment` carrying segment 1's offsets exactly when
the distance strictly exceeds the threshold. -/
def emitPair (metric : String) (threshold : ℝ) (a b : Segment) : Option DifferenceSegment :=
  let d := segDistance metric a.embedding b.embedding
  if threshold < d then some ⟨a.start_offset_sec, a.end_offset_sec, d⟩ else none

/-- Per-index emission results of the positional loop. -/
def emitOptions (metric : String) (threshold : ℝ) (s1 s2 : List Segment) :
    List (Option DifferenceSegment) :=
  List.zipWith (emitPair metric threshold) s1 s2

/-- The `differing_segments` list right after the positional loop. -/
def posDifferences (metric : String) (threshold : ℝ) (s1 s2 : List Segment) :
    List DifferenceSegment :=
  (emitOptions metric threshold s1 s2).filterMap id

/-- Overlap test of the tail loop (`app.py` lines 831-835):
`seg.start < existing.end and seg.end > existing.start` against every entry
already in `differing_segments`. -/
def overlapsAny (seg : Segment) (acc : List DifferenceSegment) : Bool :=
  acc.any (fun ex => decide (seg.start_offset_sec < ex.end_sec) &&
    decide (ex.start_sec < seg.end_offset_sec))

/-- One step of the tail loop (`app.py` lines 827-842 and 845-860): append a
maximal-distance (`999999.0`) entry for the excess segment unless it
overlaps an entry already emitted. -/
def addTail (acc : List DifferenceSegment) (seg : Segment) : List DifferenceSegment :=
  if overlapsAny seg acc then acc
  else acc ++ [⟨seg.start_offset_sec, seg.end_offset_sec, 999999⟩]

/-- The whole tail loop over the excess segments of the longer sequence. -/
def tailDifferences (init : List DifferenceSegment) (tl : List Segment) :
    List DifferenceSegment :=
  tl.foldl addTail init

/-- Final `differing_segments` list of the comparison (`app.py` lines
791-860): positional emissions, then the excess tail of whichever sequence
is longer. -/
def compareCoreDiffs (metric : String) (threshold : ℝ) (s1 s2 : List Segment) :
    List DifferenceSegment :=
  let base := posDifferences metric threshold s1 s2
  if s2.length < s1.length then tailDifferences base (s1.drop s2.length)
  else if s1.length < s2.length then tailDifferences base (s2.drop s1.length)
  else base

/-- The body of the `try` block of `compare_local_videos` (`app.py` lines
642-892), as a function of `embedding_storage`.  Errors carry the HTTP
status code the `raise HTTPException` site uses together with the
structured message payload.  Python truthiness of
`embed_data["embeddings"] and embed_data["embeddings"].segments` makes a
missing or empty payload yield the empty segment list, and
`embed_data.get("duration", 0)` defaults the duration to 0. -/
def compareInner (storage : List (String × EmbedRecord)) (id1 id2 : String)
    (threshold : ℝ) (metric : String) : Except (ℕ × CompareErr) ComparisonResponse :=
  match lookupStr storage id1, lookupStr storage id2 with
  | some r1, some r2 =>
    if r1.status ≠ "completed" then .error (400, .notReady 1 id1 r1.status)
    else if r2.status ≠ "completed" then .error (400, .notReady 2 id2 r2.status)
    else
      let segs1 := r1.embeddings.getD []
      let segs2 := r2.embeddings.getD []
      let dur1 := r1.duration.getD 0
      let dur2 := r2.duration.getD 0
      let maxDur := max dur1 dur2
      if segs1.length = 0 then .error (400, .noSegments 1 dur1)
      else if segs2.length = 0 then .error (400, .noSegments 2 dur2)
      else
        -- expected_segments = max(1, int(duration / 2)); 2-second segments
        let expected1 : ℤ := max 1 ⌊dur1 / 2⌋
        let expected2 : ℤ := max 1 ⌊dur2 / 2⌋
        if (segs1.length : ℚ) < (expected1 : ℚ) * (4 / 5) then
          .error (400, .insufficientSegments 1 expected1 segs1.length)
        else if (segs2.length : ℚ) < (expected2 : ℚ) * (4 / 5) then
          .error (400, .insufficientSegments 2 expected2 segs2.length)
        else if ((segs1.getLast?.map Segment.end_offset_sec).getD 0) < dur1 * (4 / 5) then
          .error (400, .coverageShort 1)
        else if ((segs2.getLast?.map Segment.end_offset_sec).getD 0) < dur2 * (4 / 5) then
          .error (400, .coverageShort 2)
        -- `app.py` lines 757-775: unreachable here since empties were rejected above
        else if segs1.length = 0 ∨ segs2.length = 0 then
          .ok ⟨r1.filename, r2.filename, [⟨0, maxDur, 999999⟩], 0, 1, threshold⟩
        else
          let minSegs := min segs1.length segs2.length
          -- `app.py` lines 781-788: dead guard kept from the source
          let diffs :=
            if minSegs = 0 then [⟨0, maxDur, 999999⟩]
            else compareCoreDiffs metric threshold segs1 segs2
          .ok ⟨r1.filename, r2.filename, diffs, minSegs, diffs.length, threshold⟩
  | _, _ => .error (404, .notFound)

/-- The `/compare-local-videos` endpoint: the `except Exception` handler at
`app.py` lines 894-899 catches every `HTTPException` raised inside the
`try` block and re-raises it as status 500 with detail
`"Failed to compare videos: " + str(e)`, `str(e)` being the original
status code and detail — modelled by pairing 500 with the original
`(code, payload)`. -/
def compareEndpoint (storage : List (String × EmbedRecord)) (id1 id2 : String)
    (threshold : ℝ) (metric : String) :
    Except (ℕ × ℕ × CompareErr) ComparisonResponse :=
  match compareInner storage id1 id2 threshold metric with
  | .ok r => .ok r
  | .error (c, e) => .error (500, c, e)

end

/-- Helper: looking up a key just erased from an association list fails. -/
theorem lookupStr_eraseStr {α : Type} (l : List (String × α)) (k : String) :
    lookupStr (eraseStr l k) k = none := by
  unfold lookupStr eraseStr
  rw [List.find?_eq_none.mpr]
  · rfl
  · intro x hx
    have hkeep := List.of_mem_filter hx
    simp only [bne_iff_ne, ne_eq] at hkeep
    simp only [beq_iff_eq]
    exact hkeep

/-- Helper: a successful ingestion validation returns the last segment's
end offset as the duration, and when that duration exceeds 900 seconds at
least 100 segments were present. -/
theorem validateEmbeddingResult_ok {segs : List Segment} {d : ℚ}
    (h : validateEmbeddingResult segs = .ok d) :
    ∃ last, segs.getLast? = some last ∧ d = last.end_offset_sec ∧
      (900 < d → 100 ≤ segs.length) := by
  cases hl : segs.getLast? with
  | none => simp [validateEmbeddingResult, hl] at h
  | some last =>
    refine ⟨last, rfl, ?_⟩
    simp only [validateEmbeddingResult, hl] at h
    split_ifs at h with h600 h900 hcnt hcov
    · injection h with h2
      exact ⟨h2.symm, fun _ => le_of_not_lt hcnt⟩
    · injection h with h2
      refine ⟨h2.symm, fun h9 => absurd ?_ h900⟩
      rw [h2]
      exact h9
    · injection h with h2
      refine ⟨h2.symm, fun h9 => absurd ?_ h600⟩
      rw [h2]
      exact lt_trans (by norm_num) h9

/-- C3: a submission while an ingestion is active is appended to the FIFO
and leaves the active slot untouched; three submissions from the idle state
make the first active and leave exactly the other two queued, in order; on
the active ingestion's terminal outcome exactly the head of the FIFO is
started next; with an empty FIFO the active slot is cleared. -/
theorem c3_admission_queue :
    (∀ s e v, s.processing_video = some v →
      (submitVideo s e).1.processing_video = some v ∧
      (submitVideo s e).1.pending_videos = s.pending_videos ++ [e] ∧
      (submitVideo s e).2 = "queued") ∧
    (∀ e1 e2 e3 : QueueEntry,
      ((submitVideo ((submitVideo ((submitVideo ⟨none, []⟩ e1).1) e2).1) e3).1).pending_videos
          = [e2, e3] ∧
      ((submitVideo ((submitVideo ((submitVideo ⟨none, []⟩ e1).1) e2).1) e3).1).processing_video
          = some e1.video_id) ∧
    (∀ s next rest, s.pending_videos = next :: rest →
      (finishActive s).1.processing_video = some next.video_id ∧
      (finishActive s).1.pending_videos = rest ∧
      (finishActive s).2 = some next) ∧
    (∀ s : QueueState, s.pending_videos = [] →
      (finishActive s).1.processing_video = none ∧ (finishActive s).2 = none) := by
  refine ⟨?_, ?_, ?_, ?_⟩
  · intro s e v h
    simp [submitVideo, h]
  · intro e1 e2 e3
    simp [submitVideo]
  · intro s next rest h
    simp [finishActive, h]
  · intro s h
    simp [finishActive, h]

/-- C3 witness: a concrete submission while `v0` is active. -/
theorem c3_admission_queue_witness :
    (⟨some "v0", []⟩ : QueueState).processing_video = some "v0" ∧
    ((submitVideo ⟨some "v0", []⟩ ⟨"v1", "e1", "s1", "k1"⟩).1.processing_video = some "v0" ∧
      (submitVideo ⟨some "v0", []⟩ ⟨"v1", "e1", "s1", "k1"⟩).1.pending_videos
        = ([] : List QueueEntry) ++ [⟨"v1", "e1", "s1", "k1"⟩] ∧
      (submitVideo ⟨some "v0", []⟩ ⟨"v1", "e1", "s1", "k1"⟩).2 = "queued") :=
  ⟨rfl, c3_admission_queue.1 ⟨some "v0", []⟩ ⟨"v1", "e1", "s1", "k1"⟩ "v0" rfl⟩

/-- C4 (amended): neither cancellation endpoint touches the waiting FIFO or
the active slot — cancelling a queued request marks its records cancelled
and deletes them from storage but leaves its FIFO entry in place, and
cancelling an active ingestion does not trigger a dequeue (the next entry
starts only when the running ingestion task itself terminates). -/
theorem c4_cancellation :
    (∀ st vid, (cancelVideoProcessing st vid).1.pending_videos = st.pending_videos ∧
      (cancelVideoProcessing st vid).1.processing_video = st.processing_video ∧
      (cancelVideoProcessing st vid).1.active_tasks = st.active_tasks) ∧
    (∀ st eid, (cancelEmbeddingTask st eid).1.pending_videos = st.pending_videos ∧
      (cancelEmbeddingTask st eid).1.processing_video = st.processing_video) ∧
    (∀ st vid vd, lookupStr st.video_storage vid = some vd →
      lookupStr ((cancelVideoProcessing st vid).1.video_storage) vid = none) := by
  refine ⟨?_, ?_, ?_⟩
  · intro st vid
    cases h : lookupStr st.video_storage vid with
    | none => simp [cancelVideoProcessing, h]
    | some vd => simp [cancelVideoProcessing, h]
  · intro st eid
    by_cases h : eid ∈ st.active_tasks <;>
      simp [cancelEmbeddingTask, h]
  · intro st vid vd h
    simp [cancelVideoProcessing, h, lookupStr_eraseStr]

/-- A concrete system state with `vidA` active and `vidB` queued. -/
def c4State : SysState :=
  { video_storage := [("vidA", ⟨"a.mp4", "s3://a", "processing", "embA"⟩),
      ("vidB", ⟨"b.mp4", "s3://b", "uploaded", "embB"⟩)],
    embedding_storage := [("embA", ⟨"a.mp4", "processing", none, none, none⟩),
      ("embB", ⟨"b.mp4", "pending", none, none, none⟩)],
    active_tasks := ["embA"],
    pending_videos := [⟨"vidB", "embB", "s3://b", "k"⟩],
    processing_video := some "vidA" }

/-- C4 counterexample: cancelling the queued request `vidB` reports success
yet leaves its entry in the waiting FIFO — the claim's "removes that
request from the waiting FIFO" fails; and cancelling the active `vidA`
leaves the FIFO and the active slot untouched, so no dequeue of the next
entry is triggered. -/
theorem c4_counterexample :
    (cancelVideoProcessing c4State "vidB").2 = true ∧
    (cancelVideoProcessing c4State "vidB").1.pending_videos
      = [⟨"vidB", "embB", "s3://b", "k"⟩] ∧
    (cancelVideoProcessing c4State "vidA").1.pending_videos
      = [⟨"vidB", "embB", "s3://b", "k"⟩] ∧
    (cancelVideoProcessing c4State "vidA").1.processing_video = some "vidA" := by
  refine ⟨rfl, rfl, rfl, rfl⟩

/-- C4 witness: the storage-removal effect of the amended claim at the
concrete state — after cancelling `vidB` its video record is gone. -/
theorem c4_cancellation_witness :
    lookupStr c4State.video_storage "vidB"
        = some ⟨"b.mp4", "s3://b", "uploaded", "embB"⟩ ∧
    lookupStr ((cancelVideoProcessing c4State "vidB").1.video_storage) "vidB" = none :=
  ⟨rfl, c4_cancellation.2.2 c4State "vidB" ⟨"b.mp4", "s3://b", "uploaded", "embB"⟩ rfl⟩

/-- C1 (amended): once the remote job reports ready, an empty segment
sequence fails the ingestion, and any validation error ends the record with
status `failed` carrying the message; a successful validation stores the
last segment's end offset as the duration, and when that duration exceeds
900 seconds at least 100 segments were returned; the 80%-coverage check
compares the last segment's end offset against a duration defined as that
same value, so it never fires for nonnegative offsets; the 2-second
per-segment count consistency check only logs a warning and never fails the
ingestion. -/
theorem c1_ready_validation (rec : EmbedRecord) :
    ((runIngest rec []).status = "failed" ∧
      (runIngest rec []).error = some "completed but no segments found in video_embedding") ∧
    (∀ segs e, validateEmbeddingResult segs = .error e →
      (runIngest rec segs).status = "failed" ∧ (runIngest rec segs).error = some e) ∧
    (∀ segs d, validateEmbeddingResult segs = .ok d →
      ∃ last, segs.getLast? = some last ∧ d = last.end_offset_sec ∧
        (900 < d → 100 ≤ segs.length)) ∧
    (∀ segs : List Segment, (∀ s ∈ segs, 0 ≤ s.end_offset_sec) →
      validateEmbeddingResult segs ≠
        .error "Segments do not cover full video duration - embedding generation incomplete") := by
  refine ⟨⟨rfl, rfl⟩, ?_, fun segs d h => validateEmbeddingResult_ok h, ?_⟩
  · intro segs e h
    simp [runIngest, h]
  · intro segs hnn h
    cases hl : segs.getLast? with
    | none => simp [validateEmbeddingResult, hl] at h
    | some last =>
      have hmem : last ∈ segs := by
        obtain ⟨hne, heq⟩ :=
          List.mem_getLast?_eq_getLast (show last ∈ segs.getLast? by simp [hl])
        exact heq ▸ List.getLast_mem hne
      have hnn2 : (0 : ℚ) ≤ last.end_offset_sec := hnn last hmem
      simp only [validateEmbeddingResult, hl] at h
      split_ifs at h with h600 h900 hcnt hcov
      · exact absurd (Except.error.inj h) (by decide)
      · nlinarith

/-- Segment list of the C1 counterexample: 100 segments whose last one ends
at 1000 seconds, wildly inconsistent with the expected 2-second grid
(a 1000-second source would need about 500 segments). -/
def c1CexSegs : List Segment :=
  List.replicate 99 ⟨0, 1, []⟩ ++ [⟨149, 1000, []⟩]

/-- C1 counterexample: a long video (duration 1000 s, above every internal
threshold) whose 100 returned segments are wildly inconsistent with the
fixed 2-second per-segment width (off the expected count by 400, far
beyond the 10-segment tolerance), yet the ingestion completes successfully
instead of being treated as failed. -/
theorem c1_counterexample :
    (runIngest ⟨"a.mp4", "processing", none, none, none⟩ c1CexSegs).status = "completed" ∧
    validateEmbeddingResult c1CexSegs = .ok 1000 ∧
    (600 : ℚ) < 1000 ∧ (900 : ℚ) < 1000 ∧
    c1CexSegs.length = 100 ∧ 10 < |(c1CexSegs.length : ℚ) - 1000 / 2| := by
  have hlen : c1CexSegs.length = 100 := by
    simp [c1CexSegs]
  have hlast : c1CexSegs.getLast? = some ⟨149, 1000, []⟩ := by
    simp [c1CexSegs, List.getLast?_concat]
  have hval : validateEmbeddingResult c1CexSegs = .ok 1000 := by
    simp only [validateEmbeddingResult, hlast, hlen]
    norm_num
  refine ⟨?_, hval, by norm_num, by norm_num, hlen, ?_⟩
  · simp [runIngest, hval]
  · rw [hlen]
    have h4 : ((100 : ℕ) : ℚ) - 1000 / 2 = -400 := by norm_num
    rw [h4, abs_neg, abs_of_nonneg (by norm_num : (0 : ℚ) ≤ 400)]
    norm_num

/-- C1 witness: the amended theorem applied to a two-segment ingestion. -/
theorem c1_ready_validation_witness :
    validateEmbeddingResult [⟨0, 2, []⟩, ⟨2, 4, []⟩] = .ok 4 ∧
    (∃ last, ([⟨0, 2, []⟩, ⟨2, 4, []⟩] : List Segment).getLast? = some last ∧
      (4 : ℚ) = last.end_offset_sec ∧
      (900 < (4 : ℚ) → 100 ≤ ([⟨0, 2, []⟩, ⟨2, 4, []⟩] : List Segment).length)) :=
  ⟨rfl,
    (c1_ready_validation ⟨"a.mp4", "processing", none, none, none⟩).2.2.1
      [⟨0, 2, []⟩, ⟨2, 4, []⟩] 4 rfl⟩

/-- C8: on successful ingestion the stored total duration equals the last
segment's end offset.  The orchestrator submits exactly one remote job per
ingestion (`tl.embed.task.create` is called once, `app.py` lines 343-348),
so the single part's time offset is 0 and re-ordering of job completions is
degenerate: the aggregated duration is offset (0) plus the last segment's
end offset. -/
theorem c8_aggregated_duration (rec : EmbedRecord) (segs : List Segment) :
    (runIngest rec segs).status = "completed" →
    ∃ last, segs.getLast? = some last ∧
      (runIngest rec segs).duration = some (0 + last.end_offset_sec) := by
  intro h
  cases hv : validateEmbeddingResult segs with
  | error e =>
    exfalso
    simp [runIngest, hv] at h
  | ok d =>
    obtain ⟨last, hl, hd, _⟩ := validateEmbeddingResult_ok hv
    exact ⟨last, hl, by simp [runIngest, hv, hd]⟩

/-- C8 witness: a concrete successful single-part ingestion. -/
theorem c8_aggregated_duration_witness :
    (runIngest ⟨"a.mp4", "pending", none, none, none⟩ [⟨0, 2, []⟩]).status = "completed" ∧
    (∃ last, ([⟨0, 2, []⟩] : List Segment).getLast? = some last ∧
      (runIngest ⟨"a.mp4", "pending", none, none, none⟩ [⟨0, 2, []⟩]).duration
        = some (0 + last.end_offset_sec)) :=
  ⟨rfl, c8_aggregated_duration ⟨"a.mp4", "pending", none, none, none⟩ [⟨0, 2, []⟩]
    rfl⟩

/-- Cosine distance following the spec sentence: "1 − (dot(v1,v2) /
(‖v1‖·‖v2‖)), defined as 1.0 if either vector has zero norm". -/
noncomputable def specCosineDistance (v1 v2 : List ℝ) : ℝ :=
  if l2norm v1 = 0 ∨ l2norm v2 = 0 then 1
  else 1 - dotp v1 v2 / (l2norm v1 * l2norm v2)

/-- Euclidean distance following the spec sentence: "‖v1 − v2‖ (L2 norm of
the difference)". -/
noncomputable def specEuclideanDistance (v1 v2 : List ℝ) : ℝ :=
  l2norm (List.zipWith (fun a b => a - b) v1 v2)

/-- C7: for every compared pair, under metric `cosine` the recorded
distance equals the spec formula 1 − dot/(‖v1‖·‖v2‖) with value 1.0 when
either vector has zero norm; under any other metric string it equals the L2
norm of the difference; and the positional loop emits a difference entry at
index `i` exactly when the distance strictly exceeds the threshold,
carrying segment A's start/end offsets. -/
theorem c7_metric (v1 v2 : List ℝ) (metric : String) (threshold : ℝ)
    (s1 s2 : List Segment) :
    segDistance "cosine" v1 v2 = specCosineDistance v1 v2 ∧
    (metric ≠ "cosine" → segDistance metric v1 v2 = specEuclideanDistance v1 v2) ∧
    (∀ (i : ℕ) (h1 : i < s1.length) (h2 : i < s2.length)
        (ho : i < (emitOptions metric threshold s1 s2).length),
      ((emitOptions metric threshold s1 s2)[i] ≠ none ↔
        threshold < segDistance metric s1[i].embedding s2[i].embedding) ∧
      (∀ e, (emitOptions metric threshold s1 s2)[i] = some e →
        e = ⟨s1[i].start_offset_sec, s1[i].end_offset_sec,
          segDistance metric s1[i].embedding s2[i].embedding⟩)) := by
  refine ⟨?_, ?_, ?_⟩
  · have hnn1 : 0 ≤ l2norm v1 := Real.sqrt_nonneg _
    have hnn2 : 0 ≤ l2norm v2 := Real.sqrt_nonneg _
    unfold segDistance specCosineDistance
    rw [if_pos rfl]
    rcases eq_or_lt_of_le hnn1 with hz1 | hp1
    · rw [if_neg, if_pos (Or.inl hz1.symm)]
      intro hc
      exact absurd hz1.symm (ne_of_gt hc.1)
    · rcases eq_or_lt_of_le hnn2 with hz2 | hp2
      · rw [if_neg, if_pos (Or.inr hz2.symm)]
        intro hc
        exact absurd hz2.symm (ne_of_gt hc.2)
      · rw [if_pos ⟨hp1, hp2⟩, if_neg]
        push_neg
        exact ⟨ne_of_gt hp1, ne_of_gt hp2⟩
  · intro hm
    unfold segDistance specEuclideanDistance
    rw [if_neg hm]
  · intro i h1 h2 ho
    have he : (emitOptions metric threshold s1 s2)[i] =
        emitPair metric threshold s1[i] s2[i] := List.getElem_zipWith
    by_cases hlt : threshold < segDistance metric s1[i].embedding s2[i].embedding
    · constructor
      · simp [he, emitPair, hlt]
      · intro e hsome
        rw [he] at hsome
        simp [emitPair, hlt] at hsome
        exact hsome.symm
    · constructor
      · simp [he, emitPair, hlt]
      · intro e hsome
        rw [he] at hsome
        simp [emitPair, hlt] at hsome

/-- Helper: a dot product of a vector with itself is nonnegative. -/
theorem dotp_self_nonneg (v : List ℝ) : 0 ≤ dotp v v := by
  induction v with
  | nil => simp [dotp]
  | cons a t ih =>
    have : (0 : ℝ) ≤ a * a := mul_self_nonneg a
    simp only [dotp]
    linarith

/-- Helper: the cosine self-distance of a vector with nonzero norm is 0. -/
theorem segDistance_cosine_self {v : List ℝ} (h : l2norm v ≠ 0) :
    segDistance "cosine" v v = 0 := by
  have hnn : 0 ≤ dotp v v := dotp_self_nonneg v
  have hpos : 0 < l2norm v := lt_of_le_of_ne (Real.sqrt_nonneg _) (Ne.symm h)
  have hd : dotp v v ≠ 0 := by
    intro h0
    apply h
    show Real.sqrt (dotp v v) = 0
    rw [h0, Real.sqrt_zero]
  unfold segDistance
  rw [if_pos rfl, if_pos ⟨hpos, hpos⟩,
    show l2norm v * l2norm v = dotp v v from Real.mul_self_sqrt hnn, div_self hd]
  ring

/-- C9 (amended): comparing a completed record against itself under metric
`cosine` yields distance 0.0 at every index, and with any positive
threshold no positional difference entries are emitted — provided every
segment's embedding has nonzero norm.  A zero-norm embedding self-compares
at the fallback distance 1.0 (see the counterexample). -/
theorem c9_self_compare (segs : List Segment) (threshold : ℝ)
    (hnz : ∀ s ∈ segs, l2norm s.embedding ≠ 0) :
    (∀ d ∈ allDistances "cosine" segs segs, d = 0) ∧
    (0 < threshold → posDifferences "cosine" threshold segs segs = []) := by
  induction segs with
  | nil =>
    exact ⟨by simp [allDistances], fun _ => by simp [posDifferences, emitOptions]⟩
  | cons a t ih =>
    have hna : l2norm a.embedding ≠ 0 := hnz a (List.mem_cons_self a t)
    have hres := ih (fun s hs => hnz s (List.mem_cons_of_mem a hs))
    constructor
    · intro d hd
      simp only [allDistances, List.zipWith_cons_cons, List.mem_cons] at hd
      rcases hd with h0 | hmem
      · rw [h0]
        exact segDistance_cosine_self hna
      · exact hres.1 d hmem
    · intro hthr
      have hzero := segDistance_cosine_self hna
      have hnone : emitPair "cosine" threshold a a = none := by
        simp [emitPair, hzero, not_lt.mpr (le_of_lt hthr)]
      simp only [posDifferences, emitOptions, List.zipWith_cons_cons, List.filterMap_cons]
      rw [hnone]
      simpa [posDifferences, emitOptions] using hres.2 hthr

/-- C9 counterexample segment: a zero embedding vector. -/
def c9ZeroSeg : Segment := ⟨0, 2, [0]⟩

/-- C9 counterexample: a record whose only segment has the zero embedding
vector self-compares at cosine distance 1.0, not 0.0, and with the positive
threshold 0.5 a difference entry is emitted — refuting the claim for
records containing a zero-norm embedding. -/
theorem c9_counterexample :
    allDistances "cosine" [c9ZeroSeg] [c9ZeroSeg] = [1] ∧ (1 : ℝ) ≠ 0 ∧
    posDifferences "cosine" (1 / 2) [c9ZeroSeg] [c9ZeroSeg] =
      [⟨0, 2, 1⟩] ∧ (0 : ℝ) < 1 / 2 := by
  have hd : segDistance "cosine" [(0 : ℝ)] [(0 : ℝ)] = 1 := by
    unfold segDistance
    rw [if_pos rfl, if_neg]
    intro hc
    have : dotp [(0 : ℝ)] [(0 : ℝ)] = 0 := by simp [dotp]
    rw [show l2norm [(0 : ℝ)] = 0 by simp [l2norm, this, Real.sqrt_zero]] at hc
    exact lt_irrefl 0 hc.1
  refine ⟨?_, by norm_num, ?_, by norm_num⟩
  · simp [allDistances, c9ZeroSeg, hd]
  · simp [posDifferences, emitOptions, emitPair, c9ZeroSeg, hd]
    norm_num
    simp [List.filterMap_cons]

/-- Helper: the tail loop only ever appends entries. -/
theorem tailDifferences_extends (tl : List Segment) (init : List DifferenceSegment) :
    ∃ rest, tailDifferences init tl = init ++ rest := by
  induction tl generalizing init with
  | nil => exact ⟨[], by simp [tailDifferences]⟩
  | cons t ts ih =>
    obtain ⟨r, hr⟩ := ih (addTail init t)
    by_cases hov : overlapsAny t init
    · refine ⟨r, ?_⟩
      have ha : addTail init t = init := by simp [addTail, hov]
      simp only [tailDifferences, List.foldl_cons] at hr ⊢
      rw [ha] at hr
      rw [ha]
      exact hr
    · refine ⟨⟨t.start_offset_sec, t.end_offset_sec, 999999⟩ :: r, ?_⟩
      have ha : addTail init t = init ++ [⟨t.start_offset_sec, t.end_offset_sec, 999999⟩] := by
        simp [addTail, hov]
      simp only [tailDifferences, List.foldl_cons] at hr ⊢
      rw [ha] at hr
      rw [ha, hr]
      simp

/-- Helper: processing one more tail segment appends its sentinel entry
exactly when it does not overlap what has been emitted so far. -/
theorem tailDifferences_take_succ (init : List DifferenceSegment) (tl : List Segment)
    (k : ℕ) (hk : k < tl.length) :
    tailDifferences init (tl.take (k + 1)) =
      (if overlapsAny tl[k] (tailDifferences init (tl.take k)) then
        tailDifferences init (tl.take k)
      else
        tailDifferences init (tl.take k) ++
          [⟨tl[k].start_offset_sec, tl[k].end_offset_sec, 999999⟩]) := by
  have hsome : tl[k]? = some tl[k] := List.getElem?_eq_getElem hk
  rw [tailDifferences, List.take_succ, hsome]
  simp only [Option.toList, List.foldl_append, List.foldl_cons, List.foldl_nil]
  rfl

/-- C5: the positional loop performs exactly min(N1, N2) distance
computations, pairing index `i` with index `i`; one more step of the tail
loop appends a maximal-distance entry for the excess segment exactly when
its interval does not strictly overlap any difference entry already
emitted, and everything emitted persists into the final list; the final
difference list is the tail loop run over the excess of whichever sequence
is longer, seeded with the positional emissions. -/
theorem c5_positional_and_tail (metric : String) (threshold : ℝ)
    (s1 s2 : List Segment) :
    (allDistances metric s1 s2).length = min s1.length s2.length ∧
    (∀ (i : ℕ) (h1 : i < s1.length) (h2 : i < s2.length)
        (hd : i < (allDistances metric s1 s2).length),
      (allDistances metric s1 s2)[i] =
        segDistance metric s1[i].embedding s2[i].embedding) ∧
    (∀ (init : List DifferenceSegment) (tl : List Segment) (k : ℕ) (hk : k < tl.length),
      tailDifferences init (tl.take (k + 1)) =
        (if overlapsAny tl[k] (tailDifferences init (tl.take k)) then
          tailDifferences init (tl.take k)
        else
          tailDifferences init (tl.take k) ++
            [⟨tl[k].start_offset_sec, tl[k].end_offset_sec, 999999⟩]) ∧
      ∃ rest, tailDifferences init tl = tailDifferences init (tl.take k) ++ rest) ∧
    (s2.length < s1.length →
      compareCoreDiffs metric threshold s1 s2 =
        tailDifferences (posDifferences metric threshold s1 s2) (s1.drop s2.length)) ∧
    (s1.length < s2.length →
      compareCoreDiffs metric threshold s1 s2 =
        tailDifferences (posDifferences metric threshold s1 s2) (s2.drop s1.length)) := by
  refine ⟨List.length_zipWith _ _ _, ?_, ?_, ?_, ?_⟩
  · intro i h1 h2 hd
    exact List.getElem_zipWith
  · intro init tl k hk
    refine ⟨tailDifferences_take_succ init tl k hk, ?_⟩
    have hsplit : tl = tl.take k ++ tl.drop k := (List.take_append_drop k tl).symm
    obtain ⟨rest, hrest⟩ := tailDifferences_extends (tl.drop k) (tailDifferences init (tl.take k))
    refine ⟨rest, ?_⟩
    conv_lhs => rw [hsplit]
    rw [tailDifferences, List.foldl_append]
    exact hrest
  · intro hlt
    simp [compareCoreDiffs, hlt]
  · intro hlt
    simp [compareCoreDiffs, hlt, Nat.not_lt_of_lt hlt]

/-- C6: when either record of a found pair is not `completed`, the compare
endpoint fails with the not-ready error naming the offending record id and
its current status (record 1 is checked first), and no report is returned.
The endpoint only reads `embedding_storage` (no record is mutated; the
source function performs no writes, which is why the model is a pure
function of the storage). -/
theorem c6_not_ready (storage : List (String × EmbedRecord)) (id1 id2 : String)
    (threshold : ℝ) (metric : String) (r1 r2 : EmbedRecord)
    (h1 : lookupStr storage id1 = some r1) (h2 : lookupStr storage id2 = some r2) :
    (r1.status ≠ "completed" →
      compareEndpoint storage id1 id2 threshold metric =
        .error (500, 400, .notReady 1 id1 r1.status)) ∧
    (r1.status = "completed" → r2.status ≠ "completed" →
      compareEndpoint storage id1 id2 threshold metric =
        .error (500, 400, .notReady 2 id2 r2.status)) := by
  constructor
  · intro hs
    simp [compareEndpoint, compareInner, h1, h2, hs]
  · intro hs1 hs2
    simp [compareEndpoint, compareInner, h1, h2, hs1, hs2]

/-- C2 record with an empty segment sequence (completed, duration 10). -/
def c2Rec1 : EmbedRecord := ⟨"a.mp4", "completed", some [], some 10, none⟩

/-- C2 record with one segment (completed, duration 2). -/
def c2Rec2 : EmbedRecord := ⟨"b.mp4", "completed", some [⟨0, 2, [1]⟩], some 2, none⟩

/-- C2 storage holding the two completed records above. -/
def c2Storage : List (String × EmbedRecord) := [("e1", c2Rec1), ("e2", c2Rec2)]

/-- C2 counterexample: for a completed pair where record 1 has an empty
segment sequence, compare does not return the claimed single-entry sentinel
report — it fails with the no-segments error (the internal 400, surfaced as
HTTP 500 by the catch-all handler); the sentinel-report branch of the
source is unreachable. -/
theorem c2_counterexample :
    compareEndpoint c2Storage "e1" "e2" (1 / 10) "cosine" =
      .error (500, 400, .noSegments 1 10) := by
  simp [compareEndpoint, compareInner, c2Storage, c2Rec1, c2Rec2, lookupStr]

/-- C2 (amended): for every pair of completed records where at least one
has an empty segment sequence, compare fails with the no-segments error
naming the empty side and carrying its stored duration (status 400
internally, wrapped into an HTTP 500 by the blanket exception handler),
instead of returning the single-entry sentinel report of the unreachable
early-return branch. -/
theorem c2_empty_rejected (storage : List (String × EmbedRecord)) (id1 id2 : String)
    (threshold : ℝ) (metric : String) (r1 r2 : EmbedRecord)
    (h1 : lookupStr storage id1 = some r1) (h2 : lookupStr storage id2 = some r2)
    (hs1 : r1.status = "completed") (hs2 : r2.status = "completed") :
    (r1.embeddings.getD [] = [] →
      compareEndpoint storage id1 id2 threshold metric =
        .error (500, 400, .noSegments 1 (r1.duration.getD 0))) ∧
    (r1.embeddings.getD [] ≠ [] → r2.embeddings.getD [] = [] →
      compareEndpoint storage id1 id2 threshold metric =
        .error (500, 400, .noSegments 2 (r2.duration.getD 0))) := by
  constructor
  · intro he
    simp [compareEndpoint, compareInner, h1, h2, hs1, hs2, he]
  · intro hne he
    simp [compareEndpoint, compareInner, h1, h2, hs1, hs2, he,
      List.length_eq_zero, hne]

/-- C10 (amended): compare imposes preconditions beyond both records being
completed — it fails (with the inner 400 wrapped into an HTTP 500 by the
blanket exception handler) whenever either record has an empty segment
sequence, a segment count below 80% of max(1, ⌊duration / 2⌋), or a last
segment end offset below 80% of the stored duration; so even two completed
records can be rejected as incomparable. -/
theorem c10_preconditions (storage : List (String × EmbedRecord)) (id1 id2 : String)
    (threshold : ℝ) (metric : String) (r1 r2 : EmbedRecord)
    (h1 : lookupStr storage id1 = some r1) (h2 : lookupStr storage id2 = some r2)
    (hs1 : r1.status = "completed") (hs2 : r2.status = "completed")
    (hviol :
      (r1.embeddings.getD []).length = 0 ∨
      (r2.embeddings.getD []).length = 0 ∨
      ((r1.embeddings.getD []).length : ℚ)
        < max 1 ((⌊r1.duration.getD 0 / 2⌋ : ℤ) : ℚ) * (4 / 5) ∨
      ((r2.embeddings.getD []).length : ℚ)
        < max 1 ((⌊r2.duration.getD 0 / 2⌋ : ℤ) : ℚ) * (4 / 5) ∨
      (((r1.embeddings.getD []).getLast?.map Segment.end_offset_sec).getD 0)
        < r1.duration.getD 0 * (4 / 5) ∨
      (((r2.embeddings.getD []).getLast?.map Segment.end_offset_sec).getD 0)
        < r2.duration.getD 0 * (4 / 5)) :
    ∃ e, compareEndpoint storage id1 id2 threshold metric = .error (500, 400, e) := by
  by_cases c1 : (r1.embeddings.getD []).length = 0
  · exact ⟨.noSegments 1 (r1.duration.getD 0),
      by simp [compareEndpoint, compareInner, h1, h2, hs1, hs2, c1]⟩
  · by_cases c2 : (r2.embeddings.getD []).length = 0
    · exact ⟨.noSegments 2 (r2.duration.getD 0),
        by simp [compareEndpoint, compareInner, h1, h2, hs1, hs2, c1, c2]⟩
    · by_cases c3 : ((r1.embeddings.getD []).length : ℚ)
          < max 1 ((⌊r1.duration.getD 0 / 2⌋ : ℤ) : ℚ) * (4 / 5)
      · exact ⟨.insufficientSegments 1 (max 1 ⌊r1.duration.getD 0 / 2⌋)
            (r1.embeddings.getD []).length,
          by simp [compareEndpoint, compareInner, h1, h2, hs1, hs2, c1, c2, c3]⟩
      · by_cases c4 : ((r2.embeddings.getD []).length : ℚ)
            < max 1 ((⌊r2.duration.getD 0 / 2⌋ : ℤ) : ℚ) * (4 / 5)
        · exact ⟨.insufficientSegments 2 (max 1 ⌊r2.duration.getD 0 / 2⌋)
              (r2.embeddings.getD []).length,
            by simp [compareEndpoint, compareInner, h1, h2, hs1, hs2, c1, c2, c3, c4]⟩
        · by_cases c5 : (((r1.embeddings.getD []).getLast?.map Segment.end_offset_sec).getD 0)
              < r1.duration.getD 0 * (4 / 5)
          · exact ⟨.coverageShort 1, by
              simp [compareEndpoint, compareInner, h1, h2, hs1, hs2, c1, c2, c3, c4, c5]⟩
          · by_cases c6 : (((r2.embeddings.getD []).getLast?.map Segment.end_offset_sec).getD 0)
                < r2.duration.getD 0 * (4 / 5)
            · exact ⟨.coverageShort 2, by
                simp [compareEndpoint, compareInner, h1, h2, hs1, hs2, c1, c2, c3, c4, c5, c6]⟩
            · rcases hviol with h | h | h | h | h | h
              · exact absurd h c1
              · exact absurd h c2
              · exact absurd h c3
              · exact absurd h c4
              · exact absurd h c5
              · exact absurd h c6

/-- C10 counterexample record: completed, duration 3 s, a single segment
covering 0-3 s with embedding [1]. -/
def c10Rec : EmbedRecord := ⟨"a.mp4", "completed", some [⟨0, 3, [1]⟩], some 3, none⟩

/-- C10 counterexample storage: the record under both ids. -/
def c10Storage : List (String × EmbedRecord) := [("e1", c10Rec), ("e2", c10Rec)]

/-- C10 counterexample: a record1 whose segment count (1) IS below 80% of
duration/2 (1 < 1.2 for duration 3) as the claim words it, yet compare
succeeds with a report — because the code takes max(1, int(duration / 2))
as the expected count, so the check 1 < 0.8 · 1 does not fire.  This
refutes both the "below 80% of (duration / 2)" reading and, since every
inner 400 is re-raised as 500, the "HTTP 400" part of the claim. -/
theorem c10_counterexample :
    ((1 : ℚ) < 3 / 2 * (4 / 5)) ∧
    compareEndpoint c10Storage "e1" "e2" (1 / 10) "cosine" =
      .ok ⟨"a.mp4", "a.mp4", [], 1, 0, 1 / 10⟩ := by
  have hone : l2norm [(1 : ℝ)] = 1 := by
    simp [l2norm, dotp]
  have hd : segDistance "cosine" [(1 : ℝ)] [(1 : ℝ)] = 0 := by
    unfold segDistance
    rw [if_pos rfl, if_pos (by rw [hone]; norm_num)]
    rw [hone]
    simp [dotp]
  refine ⟨by norm_num, ?_⟩
  have hfl : (⌊(3 : ℚ) / 2⌋ : ℤ) = 1 := by norm_num
  simp [compareEndpoint, compareInner, c10Storage, c10Rec, lookupStr, hfl,
    compareCoreDiffs, posDifferences, emitOptions, emitPair, hd]
  norm_num



/-- C5 witness: the theorem applied to a length-2 versus length-1 pair,
discharging the longer-first-sequence hypothesis concretely. -/
theorem c5_positional_and_tail_witness :
    ([(⟨0, 2, [1]⟩ : Segment)].length < [(⟨0, 2, [1]⟩ : Segment), ⟨2, 4, [1]⟩].length) ∧
    compareCoreDiffs "euclidean" 1 [⟨0, 2, [1]⟩, ⟨2, 4, [1]⟩] [⟨0, 2, [1]⟩] =
      tailDifferences (posDifferences "euclidean" 1 [⟨0, 2, [1]⟩, ⟨2, 4, [1]⟩] [⟨0, 2, [1]⟩])
        ([(⟨0, 2, [1]⟩ : Segment), ⟨2, 4, [1]⟩].drop 1) :=
  ⟨by decide,
    (c5_positional_and_tail "euclidean" 1 [⟨0, 2, [1]⟩, ⟨2, 4, [1]⟩] [⟨0, 2, [1]⟩]).2.2.2.1
      (by decide)⟩

/-- C6 witness: comparing against a record with status `processing` fails
with the not-ready error naming it. -/
theorem c6_not_ready_witness :
    ("processing" : String) ≠ "completed" ∧
    compareEndpoint [("p1", ⟨"a.mp4", "processing", none, none, none⟩),
        ("p2", ⟨"b.mp4", "completed", none, none, none⟩)] "p1" "p2" (1 / 10) "cosine" =
      .error (500, 400, .notReady 1 "p1" "processing") :=
  ⟨by decide,
    (c6_not_ready [("p1", ⟨"a.mp4", "processing", none, none, none⟩),
        ("p2", ⟨"b.mp4", "completed", none, none, none⟩)] "p1" "p2" (1 / 10) "cosine"
      ⟨"a.mp4", "processing", none, none, none⟩
      ⟨"b.mp4", "completed", none, none, none⟩ rfl rfl).1 (by decide)⟩

/-- C7 witness: the non-cosine branch applied at a concrete metric string
and concrete vectors. -/
theorem c7_metric_witness :
    ("euclidean" : String) ≠ "cosine" ∧
    segDistance "euclidean" [(1 : ℝ)] [(1 : ℝ)] =
      specEuclideanDistance [(1 : ℝ)] [(1 : ℝ)] :=
  ⟨by decide, (c7_metric [(1 : ℝ)] [(1 : ℝ)] "euclidean" 0 [] []).2.1 (by decide)⟩

/-- C9 witness: the amended theorem applied to a one-segment record with a
unit embedding and threshold 1. -/
theorem c9_self_compare_witness :
    (∀ s ∈ [(⟨0, 2, [1]⟩ : Segment)], l2norm s.embedding ≠ 0) ∧
    ((∀ d ∈ allDistances "cosine" [(⟨0, 2, [1]⟩ : Segment)] [⟨0, 2, [1]⟩], d = 0) ∧
      (0 < (1 : ℝ) →
        posDifferences "cosine" 1 [(⟨0, 2, [1]⟩ : Segment)] [⟨0, 2, [1]⟩] = [])) := by
  have hnz : ∀ s ∈ [(⟨0, 2, [1]⟩ : Segment)], l2norm s.embedding ≠ 0 := by
    intro s hs
    rw [List.mem_singleton] at hs
    subst hs
    show l2norm [(1 : ℝ)] ≠ 0
    rw [show l2norm [(1 : ℝ)] = 1 by simp [l2norm, dotp]]
    norm_num
  exact ⟨hnz, c9_self_compare [⟨0, 2, [1]⟩] 1 hnz⟩

/-- C2 witness: the amended theorem applied at the concrete storage. -/
theorem c2_empty_rejected_witness :
    c2Rec1.embeddings.getD [] = [] ∧
    compareEndpoint c2Storage "e1" "e2" (1 / 2) "euclidean" =
      .error (500, 400, .noSegments 1 (c2Rec1.duration.getD 0)) :=
  ⟨rfl, (c2_empty_rejected c2Storage "e1" "e2" (1 / 2) "euclidean" c2Rec1 c2Rec2
    rfl rfl rfl rfl).1 rfl⟩

/-- C10 witness: the amended theorem applied to a completed pair whose
first record has an empty segment sequence. -/
theorem c10_preconditions_witness :
    ((⟨"x.mp4", "completed", some [], some 4, none⟩ : EmbedRecord).embeddings.getD
        []).length = 0 ∧
    ∃ e, compareEndpoint [("q1", ⟨"x.mp4", "completed", some [], some 4, none⟩),
        ("q2", ⟨"y.mp4", "completed", some [⟨0, 2, [1]⟩], some 2, none⟩)]
        "q1" "q2" (1 / 10) "cosine" = .error (500, 400, e) :=
  ⟨rfl, c10_preconditions [("q1", ⟨"x.mp4", "completed", some [], some 4, none⟩),
      ("q2", ⟨"y.mp4", "completed", some [⟨0, 2, [1]⟩], some 2, none⟩)]
    "q1" "q2" (1 / 10) "cosine"
    ⟨"x.mp4", "completed", some [], some 4, none⟩
    ⟨"y.mp4", "completed", some [⟨0, 2, [1]⟩], some 2, none⟩
    rfl rfl rfl rfl (Or.inl rfl)⟩


end SAGE
